import Mathlib

/-!
Verification of the progress-aggregation core of the `iyes_progress` crate
(src/lib.rs), as a shallow embedding. Machine integers (`u32`) are modelled
as `Nat` with explicit reduction modulo `2^32` wherever the Rust code adds
(atomic `fetch_add` wraps; plain `+` has wrapping release semantics).
-/

namespace IyesProgress

/-- Modulus of `u32` arithmetic. -/
def U32MOD : Nat := 4294967296

/-- Embeds `struct Progress { done: u32, total: u32 }` (src/lib.rs lines 92-98). -/
structure Progress where
  done : Nat
  total : Nat
deriving DecidableEq

/-- A `Progress` whose fields are in range of `u32`. -/
def Progress.Valid (p : Progress) : Prop :=
  p.done < U32MOD ∧ p.total < U32MOD

/-- Embeds `Progress::is_ready` (src/lib.rs lines 121-125): `self.done >= self.total`. -/
def Progress.isReady (p : Progress) : Bool :=
  decide (p.total ≤ p.done)

/-- Embeds `impl From<bool> for Progress` (src/lib.rs lines 100-107). -/
def Progress.fromBool (b : Bool) : Progress :=
  { total := 1, done := if b then 1 else 0 }

/-- Embeds `impl Add for Progress` and the identical `AddAssign`
(src/lib.rs lines 127-143): componentwise `u32` addition. -/
def Progress.add (p q : Progress) : Progress :=
  { done := (p.done + q.done) % U32MOD, total := (p.total + q.total) % U32MOD }

/-- Embeds `struct HiddenProgress(pub Progress)` (src/lib.rs line 155). -/
structure HiddenProgress where
  val : Progress
deriving DecidableEq

/-- Embeds `struct ProgressCounter` (src/lib.rs lines 247-258): four running
`AtomicU32` counters and two persisted `Progress` baselines. -/
structure ProgressCounter where
  done : Nat
  total : Nat
  done_hidden : Nat
  total_hidden : Nat
  persisted : Progress
  persisted_hidden : Progress
deriving DecidableEq

/-- A counter whose running fields are in range of `u32`. -/
def ProgressCounter.Valid (c : ProgressCounter) : Prop :=
  c.done < U32MOD ∧ c.total < U32MOD ∧ c.done_hidden < U32MOD ∧ c.total_hidden < U32MOD

/-- Embeds `#[derive(Default)]` for `ProgressCounter`: all fields zero. -/
def ProgressCounter.default : ProgressCounter :=
  { done := 0, total := 0, done_hidden := 0, total_hidden := 0
    persisted := ⟨0, 0⟩, persisted_hidden := ⟨0, 0⟩ }

/-- Embeds `ProgressCounter::progress` (src/lib.rs lines 273-278): snapshot of
the visible running counters. -/
def ProgressCounter.progress (c : ProgressCounter) : Progress :=
  { done := c.done, total := c.total }

/-- Embeds `ProgressCounter::progress_complete` (src/lib.rs lines 293-300):
`u32` sum of visible and hidden running counters. -/
def ProgressCounter.progressComplete (c : ProgressCounter) : Progress :=
  { done := (c.done + c.done_hidden) % U32MOD
    total := (c.total + c.total_hidden) % U32MOD }

/-- Embeds `ProgressCounter::manually_track` (src/lib.rs lines 306-311):
`fetch_add` of `progress.total` into `total` and of
`progress.done.min(progress.total)` into `done`. -/
def ProgressCounter.manuallyTrack (c : ProgressCounter) (p : Progress) : ProgressCounter :=
  { c with total := (c.total + p.total) % U32MOD
           done := (c.done + min p.done p.total) % U32MOD }

/-- Embeds `ProgressCounter::manually_track_hidden` (src/lib.rs lines 322-328):
same clamp-and-add against the hidden counters. -/
def ProgressCounter.manuallyTrackHidden (c : ProgressCounter) (hp : HiddenProgress) :
    ProgressCounter :=
  { c with total_hidden := (c.total_hidden + hp.val.total) % U32MOD
           done_hidden := (c.done_hidden + min hp.val.done hp.val.total) % U32MOD }

/-- Embeds `ProgressCounter::persist_progress` (src/lib.rs lines 331-334):
`self.manually_track(progress); self.persisted += progress;`. -/
def ProgressCounter.persistProgress (c : ProgressCounter) (p : Progress) : ProgressCounter :=
  let c' := c.manuallyTrack p
  { c' with persisted := c'.persisted.add p }

/-- Embeds `ProgressCounter::persist_progress_hidden` (src/lib.rs lines 337-340). -/
def ProgressCounter.persistProgressHidden (c : ProgressCounter) (hp : HiddenProgress) :
    ProgressCounter :=
  let c' := c.manuallyTrackHidden hp
  { c' with persisted_hidden := c'.persisted_hidden.add hp.val }

/-- Embeds `next_frame` (src/lib.rs lines 376-392): stores the persisted
baseline fields into the four running counters. -/
def nextFrame (c : ProgressCounter) : ProgressCounter :=
  { c with done := c.persisted.done, total := c.persisted.total
           done_hidden := c.persisted_hidden.done
           total_hidden := c.persisted_hidden.total }

/-- Sum of the clamped done contributions of a list of `Progress` values. -/
def sumDone (l : List Progress) : Nat :=
  (l.map (fun p => min p.done p.total)).sum

/-- Sum of the total contributions of a list of `Progress` values. -/
def sumTotal (l : List Progress) : Nat :=
  (l.map Progress.total).sum

/-! ## Theorems for the claims -/

/-- Claim C8: `is_ready` returns true iff `done >= total`; `{3,3}` and `{0,0}`
are ready, `{2,3}` is not. -/
theorem isReady_iff_done_ge_total (p : Progress) :
    (p.isReady = true ↔ p.total ≤ p.done)
    ∧ Progress.isReady ⟨3, 3⟩ = true
    ∧ Progress.isReady ⟨0, 0⟩ = true
    ∧ Progress.isReady ⟨2, 3⟩ = false := by
  refine ⟨?_, by decide, by decide, by decide⟩
  simp [Progress.isReady]

/-- Claim C9: the conversion from `bool` maps `true` to the ready value
`{done:1, total:1}` and `false` to the not-ready value `{done:0, total:1}`. -/
theorem fromBool_spec :
    Progress.fromBool true = ⟨1, 1⟩
    ∧ (Progress.fromBool true).isReady = true
    ∧ Progress.fromBool false = ⟨0, 1⟩
    ∧ (Progress.fromBool false).isReady = false := by
  refine ⟨by decide, by decide, by decide, by decide⟩

/-- Claim C1: `manually_track p` adds (mod `2^32`) `p.total` to the visible
running total and `min p.done p.total` to the visible running done;
`manually_track_hidden` does the same against the hidden counters; and on a
fresh counter, recording `{done:5, total:2}` yields the snapshot `{2,2}`. -/
theorem manuallyTrack_adds_clamped (c : ProgressCounter) (p : Progress) :
    (c.manuallyTrack p).progress
      = ⟨(c.progress.done + min p.done p.total) % U32MOD,
         (c.progress.total + p.total) % U32MOD⟩
    ∧ (c.manuallyTrackHidden ⟨p⟩).done_hidden = (c.done_hidden + min p.done p.total) % U32MOD
    ∧ (c.manuallyTrackHidden ⟨p⟩).total_hidden = (c.total_hidden + p.total) % U32MOD
    ∧ (ProgressCounter.default.manuallyTrack ⟨5, 2⟩).progress = ⟨2, 2⟩ := by
  refine ⟨rfl, rfl, rfl, by decide⟩

/-- Claim C3: `progress_complete` is the componentwise (`u32`) sum of the
visible snapshot returned by `progress` and the hidden snapshot. -/
theorem progressComplete_eq_visible_add_hidden (c : ProgressCounter) :
    c.progressComplete = c.progress.add ⟨c.done_hidden, c.total_hidden⟩ := by
  rfl

/-- Claim C6: `manually_track` changes only the visible running counters,
`manually_track_hidden` changes only the hidden running counters, neither
touches any baseline; after `record {1,1}` and `record_hidden {1,1}` on a
fresh counter, `progress` is `{1,1}` and `progress_complete` is `{2,2}`. -/
theorem track_frame_conditions (c : ProgressCounter) (p : Progress) (hp : HiddenProgress) :
    ((c.manuallyTrack p).done_hidden = c.done_hidden
      ∧ (c.manuallyTrack p).total_hidden = c.total_hidden
      ∧ (c.manuallyTrack p).persisted = c.persisted
      ∧ (c.manuallyTrack p).persisted_hidden = c.persisted_hidden)
    ∧ ((c.manuallyTrackHidden hp).done = c.done
      ∧ (c.manuallyTrackHidden hp).total = c.total
      ∧ (c.manuallyTrackHidden hp).persisted = c.persisted
      ∧ (c.manuallyTrackHidden hp).persisted_hidden = c.persisted_hidden)
    ∧ ((ProgressCounter.default.manuallyTrack ⟨1, 1⟩).manuallyTrackHidden ⟨⟨1, 1⟩⟩).progress
        = ⟨1, 1⟩
    ∧ ((ProgressCounter.default.manuallyTrack ⟨1, 1⟩).manuallyTrackHidden ⟨⟨1, 1⟩⟩).progressComplete
        = ⟨2, 2⟩ := by
  refine ⟨⟨rfl, rfl, rfl, rfl⟩, ⟨rfl, rfl, rfl, rfl⟩, by decide, by decide⟩

/-- Claim C4: `next_frame` sets all four running counters to the persisted
baseline fields; after `persist {1,1}` on a fresh counter, a reset with no
further records still reads `{1,1}`. -/
theorem nextFrame_resets_to_baseline (c : ProgressCounter) :
    (nextFrame c).done = c.persisted.done
    ∧ (nextFrame c).total = c.persisted.total
    ∧ (nextFrame c).done_hidden = c.persisted_hidden.done
    ∧ (nextFrame c).total_hidden = c.persisted_hidden.total
    ∧ (nextFrame (ProgressCounter.default.persistProgress ⟨1, 1⟩)).progress = ⟨1, 1⟩ := by
  refine ⟨rfl, rfl, rfl, rfl, by decide⟩

/-- Claim C5: `persist_progress p` equals `manually_track p` followed by a
componentwise fold of `p` into the visible baseline, and
`persist_progress_hidden` does the same for the hidden side; the contribution
counts in the current cycle (fresh counter reads `{1,1}` right away). -/
theorem persistProgress_tracks_and_folds (c : ProgressCounter) (p : Progress)
    (hp : HiddenProgress) :
    c.persistProgress p = { c.manuallyTrack p with persisted := c.persisted.add p }
    ∧ c.persistProgressHidden hp
        = { c.manuallyTrackHidden hp with persisted_hidden := c.persisted_hidden.add hp.val }
    ∧ (ProgressCounter.default.persistProgress ⟨1, 1⟩).progress = ⟨1, 1⟩
    ∧ (ProgressCounter.default.persistProgress ⟨1, 1⟩).persisted = ⟨1, 1⟩ := by
  refine ⟨rfl, rfl, by decide, by decide⟩

/-- Folding `manually_track` over a list accumulates the clamped done sum. -/
theorem foldl_track_done (l : List Progress) (c : ProgressCounter) (h : c.done < U32MOD) :
    (l.foldl ProgressCounter.manuallyTrack c).done = (c.done + sumDone l) % U32MOD := by
  induction l generalizing c with
  | nil => simpa [sumDone] using (Nat.mod_eq_of_lt h).symm
  | cons p t ih =>
      rw [List.foldl_cons, ih (c.manuallyTrack p) (Nat.mod_lt _ (by decide))]
      show ((c.done + min p.done p.total) % U32MOD + sumDone t) % U32MOD
        = (c.done + sumDone (p :: t)) % U32MOD
      rw [Nat.mod_add_mod]
      simp [sumDone, Nat.add_assoc]

/-- Folding `manually_track` over a list accumulates the total sum. -/
theorem foldl_track_total (l : List Progress) (c : ProgressCounter) (h : c.total < U32MOD) :
    (l.foldl ProgressCounter.manuallyTrack c).total = (c.total + sumTotal l) % U32MOD := by
  induction l generalizing c with
  | nil => simpa [sumTotal] using (Nat.mod_eq_of_lt h).symm
  | cons p t ih =>
      rw [List.foldl_cons, ih (c.manuallyTrack p) (Nat.mod_lt _ (by decide))]
      show ((c.total + p.total) % U32MOD + sumTotal t) % U32MOD
        = (c.total + sumTotal (p :: t)) % U32MOD
      rw [Nat.mod_add_mod]
      simp [sumTotal, Nat.add_assoc]

/-- Claim C2: applying `manually_track` over any permutation of a list of
contributions yields the same visible snapshot, equal to the starting snapshot
plus the clamped done sum and the total sum (mod `2^32`). -/
theorem record_order_independent (c : ProgressCounter) (l l' : List Progress)
    (hv : c.done < U32MOD ∧ c.total < U32MOD) (hperm : l.Perm l') :
    (l.foldl ProgressCounter.manuallyTrack c).progress
      = (l'.foldl ProgressCounter.manuallyTrack c).progress
    ∧ (l.foldl ProgressCounter.manuallyTrack c).progress
      = ⟨(c.progress.done + sumDone l) % U32MOD, (c.progress.total + sumTotal l) % U32MOD⟩ := by
  have hsd : sumDone l = sumDone l' := (hperm.map _).sum_eq
  have hst : sumTotal l = sumTotal l' := (hperm.map _).sum_eq
  constructor
  · simp [ProgressCounter.progress, foldl_track_done _ _ hv.1, foldl_track_total _ _ hv.2,
      hsd, hst]
  · simp [ProgressCounter.progress, foldl_track_done _ _ hv.1, foldl_track_total _ _ hv.2]

/-- Witness for C2 at a fresh counter and the lists `[{1,2},{5,2}]` and
`[{5,2},{1,2}]`. -/
theorem record_order_independent_witness :
    (ProgressCounter.default.done < U32MOD ∧ ProgressCounter.default.total < U32MOD)
    ∧ ([(⟨1, 2⟩ : Progress), ⟨5, 2⟩].Perm [⟨5, 2⟩, ⟨1, 2⟩])
    ∧ ([(⟨1, 2⟩ : Progress), ⟨5, 2⟩].foldl ProgressCounter.manuallyTrack ProgressCounter.default).progress
      = ([(⟨5, 2⟩ : Progress), ⟨1, 2⟩].foldl ProgressCounter.manuallyTrack ProgressCounter.default).progress := by
  have hperm : [(⟨1, 2⟩ : Progress), ⟨5, 2⟩].Perm [⟨5, 2⟩, ⟨1, 2⟩] :=
    List.Perm.swap _ _ _
  exact ⟨⟨by decide, by decide⟩, hperm,
    (record_order_independent ProgressCounter.default _ _ ⟨by decide, by decide⟩ hperm).1⟩

/-- Claim C7: componentwise `Progress` addition is a total function: for every
pair of inputs it produces a valid `u32` pair, agreeing with the exact
mathematical componentwise sum whenever that sum fits in `u32`. -/
theorem progress_add_total_function (p q : Progress) :
    (p.add q).Valid
    ∧ (p.done + q.done < U32MOD → (p.add q).done = p.done + q.done)
    ∧ (p.total + q.total < U32MOD → (p.add q).total = p.total + q.total)
    ∧ (p.add q).done = (p.done + q.done) % U32MOD
    ∧ (p.add q).total = (p.total + q.total) % U32MOD := by
  exact ⟨⟨Nat.mod_lt _ (by decide), Nat.mod_lt _ (by decide)⟩,
    fun h => Nat.mod_eq_of_lt h, fun h => Nat.mod_eq_of_lt h, rfl, rfl⟩

/-- Witness for C7 at `{1,2} + {3,4}`. -/
theorem progress_add_total_function_witness :
    (1 + 3 < U32MOD) ∧ (Progress.add ⟨1, 2⟩ ⟨3, 4⟩).done = 1 + 3 :=
  ⟨by decide, (progress_add_total_function ⟨1, 2⟩ ⟨3, 4⟩).2.1 (by decide)⟩

/-- Claim C10: for `p.done > p.total`, `persist_progress p` adds the clamped
`min p.done p.total = p.total` to the running done counter but folds the
unclamped `p.done` into the persisted baseline, so after the next cycle reset
on a fresh counter the visible snapshot has `done` strictly above `total`
(e.g. `persist {5,2}` reads `{2,2}` this cycle but `{5,2}` after the reset). -/
theorem persist_clamps_running_not_baseline (c : ProgressCounter) (p : Progress)
    (h : p.total < p.done) (hv : p.Valid) :
    (c.persistProgress p).done = (c.done + p.total) % U32MOD
    ∧ (c.persistProgress p).persisted.done = (c.persisted.done + p.done) % U32MOD
    ∧ (nextFrame (ProgressCounter.default.persistProgress p)).progress.total
      < (nextFrame (ProgressCounter.default.persistProgress p)).progress.done
    ∧ (ProgressCounter.default.persistProgress ⟨5, 2⟩).progress = ⟨2, 2⟩
    ∧ (nextFrame (ProgressCounter.default.persistProgress ⟨5, 2⟩)).progress = ⟨5, 2⟩ := by
  refine ⟨?_, rfl, ?_, by decide, by decide⟩
  · show (c.done + min p.done p.total) % U32MOD = (c.done + p.total) % U32MOD
    rw [min_eq_right h.le]
  · show (0 + p.total) % U32MOD < (0 + p.done) % U32MOD
    rw [Nat.zero_add, Nat.zero_add, Nat.mod_eq_of_lt hv.2, Nat.mod_eq_of_lt hv.1]
    exact h

/-- Witness for C10 at the fresh counter and the malformed value `{5,2}`. -/
theorem persist_clamps_running_not_baseline_witness :
    ((2 : Nat) < 5) ∧ Progress.Valid ⟨5, 2⟩
    ∧ (ProgressCounter.default.persistProgress ⟨5, 2⟩).persisted.done = (0 + 5) % U32MOD := by
  refine ⟨by decide, ⟨by decide, by decide⟩, ?_⟩
  exact (persist_clamps_running_not_baseline ProgressCounter.default ⟨5, 2⟩ (by decide)
    ⟨by decide, by decide⟩).2.1

end IyesProgress
